import Mathlib

/-!
Shallow embedding of `src/OpenAccess/openaccess.py` (class `OpenAccess`), a
client library for the OnGuard OpenAccess HTTP API, together with proofs of
the specified properties of its session manager, endpoint builder, pagination
aggregator, record projectors, directory fetcher and command executor.

Modelling conventions:
* Decoded JSON documents are values of the inductive type `Json`.
* Python exceptions that the code can raise (`KeyError`, `TypeError`,
  `ValueError` from `json.loads`) are modelled with `Except PyExn`.
* The HTTP transport is a stub: a function from the request URL to the decoded
  JSON body of the response (for the paginated GET endpoints), or an explicit
  `Response` / `HttpOutcome` value (for `sign_in`, `get_directories`).
  A `Response` carries the raw body text together with its JSON decoding
  (`none` when the text is not valid JSON, in which case `json.loads` raises).
* Mutation of `self` is explicit state passing on `ClientState`.
-/

namespace OpenAccessPy

/-- Python exceptions that the embedded code can raise. -/
inductive PyExn where
  | keyError (key : String)
  | typeError (msg : String)
  | valueError (msg : String)
  | attributeError (msg : String)
  deriving Repr, DecidableEq

/-- Decoded JSON values, as produced by Python's `json.loads`.
Objects are association lists with distinct keys (Python dicts). -/
inductive Json where
  | null
  | bool (b : Bool)
  | num (n : Int)
  | str (s : String)
  | arr (items : List Json)
  | obj (fields : List (String × Json))

/-- Lookup in a JSON object's field list (Python dict lookup; keys are
distinct, so first match is the dict entry). -/
def objLookup : List (String × Json) → String → Option Json
  | [], _ => none
  | (k, v) :: rest, key => if k == key then some v else objLookup rest key

/-- Python subscript `j[key]` on a decoded JSON value: a `KeyError` when the
key is absent from a dict, a `TypeError` when `j` is not a dict. -/
def jsonSub (j : Json) (key : String) : Except PyExn Json :=
  match j with
  | .obj fields =>
      match objLookup fields key with
      | some v => Except.ok v
      | none => Except.error (PyExn.keyError key)
  | _ => Except.error (PyExn.typeError "value is not subscriptable by a string key")

/-- Python `x == True` on a decoded JSON value (line 72: `jo[...] == True`).
In Python, `True == True` and `1 == True` hold; everything else is `False`. -/
def pyEqTrue : Json → Bool
  | .bool b => b
  | .num n => n == 1
  | _ => false

/-- Python `x == k` against an integer literal (line 192: `result["count"] == 0`).
Python booleans compare equal to the integers 0 and 1. -/
def pyEqNum (j : Json) (k : Int) : Bool :=
  match j with
  | .num n => n == k
  | .bool b => (if b then (1 : Int) else 0) == k
  | _ => false

/-- Python `str(x)` on a decoded JSON value (line 220: `str(reader.panelId)`).
The rendering of composite values is not relied upon by any theorem. -/
def pyStr : Json → String
  | .null => "None"
  | .bool b => if b then "True" else "False"
  | .num n => toString n
  | .str s => s
  | .arr _ => "<list>"
  | .obj _ => "<dict>"

/-- Python `dict.update` with a single key: replace the value of an existing
key in place, or append a fresh key at the end (lines 24, 136). -/
def headersUpdate : List (String × Json) → String → Json → List (String × Json)
  | [], k, v => [(k, v)]
  | (a, b) :: rest, k, v =>
      if a == k then (k, v) :: rest else (a, b) :: headersUpdate rest k v

/-- The environment-derived class constants (lines 8-17), injected as values:
`config = dotenv_values(".env")` then `API_URL`, `DEFAULT_PAGE_SIZE`,
`SUCCESS`, `ERROR`, `API_VERSION`, `APPLICATION_ID`. All are strings read
from the `.env` file. -/
structure Config where
  API_URL : String
  DEFAULT_PAGE_SIZE : String
  SUCCESS : String
  ERROR : String
  API_VERSION : String
  APPLICATION_ID : String

/-- A projected panel record (lines 69-74): the dict
`{'id': ..., 'name': ..., 'status': ..., 'type': ...}` built by
`get_panels_from_result`; `status` is the Python boolean `IsOnline == True`. -/
structure Panel where
  id : Json
  name : Json
  status : Bool
  type : Json

/-- A projected reader record (lines 80-86): the dict
`{'panelId', 'id', 'name', 'type', 'hostName'}` built by
`get_readers_from_result`. -/
structure Reader where
  panelId : Json
  id : Json
  name : Json
  type : Json
  hostName : Json

/-- A projected directory record (lines 153-156): the dict
`{'Id': ..., 'Name': ...}` built by `get_directories`. -/
structure Directory where
  Id : Json
  Name : Json

/-- The mutable state of an `OpenAccess` instance: `self.base_url`,
`self.client.headers`, `self.session_token` (absent until `sign_in`
succeeds, modelled as `Option`), `self.panels`. Header values are the stored
Python objects, hence `Json`. -/
structure ClientState where
  base_url : String
  headers : List (String × Json)
  session_token : Option Json
  panels : List Panel

/-- `OpenAccess.__init__` (lines 19-31): sets `base_url` from `API_URL`,
clears the session headers and installs `Application-Id`, `Content-Type` and
`Accept`, and initialises `self.panels` to the empty list. No session token
attribute exists yet. (The logging setup of lines 33-38 has no effect on the
state modelled here.) -/
def OpenAccess.mkInit (cfg : Config) : ClientState :=
  { base_url := cfg.API_URL
    headers := [("Application-Id", Json.str cfg.APPLICATION_ID),
                ("Content-Type", Json.str "application/json"),
                ("Accept", Json.str "application/json")]
    session_token := none
    panels := [] }

/-- `build_uri_with_version` (lines 50-51):
`"{}{}?version={}".format(self.base_url, method_name, version)`. -/
def build_uri_with_version (st : ClientState) (method_name version : String) : String :=
  st.base_url ++ method_name ++ "?version=" ++ version

/-- An HTTP response as seen by the client: status code, reason phrase, raw
body text, and the JSON decoding of that text (`none` when the text is not
valid JSON, in which case `parse_response` / `json.loads` raises). -/
structure Response where
  status_code : Nat
  reason : String
  text : String
  body : Option Json

/-- `requests.Response.ok`: true exactly when the status code is below 400. -/
def respOk (r : Response) : Bool :=
  r.status_code < 400

/-- The outcome of issuing an HTTP request: either the transport raises a
`requests.exceptions.RequestException` carrying a message, or a response
arrives. -/
inductive HttpOutcome where
  | exn (msg : String)
  | resp (r : Response)

/-- `parse_response` (lines 47-48): `json.loads(response.content.decode('utf-8'))`.
Raises a `ValueError` when the body is not valid JSON. -/
def parse_response (r : Response) : Except PyExn Json :=
  match r.body with
  | some j => Except.ok j
  | none => Except.error (PyExn.valueError "Expecting value: line 1 column 1 (char 0)")

/-- `sign_in` (lines 113-141). The POST of the user payload
`{"user_name": username, "password": password, "directory_id": directory_id}`
to the `authentication` endpoint is represented by its outcome `o`.
On a `RequestException` the connection-error string is returned; on an `ok`
response the body is parsed, `result["session_token"]` is stored and merged
into the headers and `SUCCESS` is returned; on a non-`ok` response the
server-error string is returned. Exceptions raised while parsing the body or
looking up `session_token` propagate (there is no enclosing handler). -/
def sign_in (cfg : Config) (st : ClientState) (username password directory_id : String)
    (o : HttpOutcome) : Except PyExn (ClientState × String) :=
  match o with
  | .exn e =>
      Except.ok (st, "Connection was unexpectedly closed. Make sure you don't have anything other than OpenAccess running on port 8080. Message: " ++ e)
  | .resp r =>
      if respOk r then
        match parse_response r with
        | Except.error e => Except.error e
        | Except.ok result =>
            match jsonSub result "session_token" with
            | Except.error e => Except.error e
            | Except.ok tok =>
                Except.ok ({ st with
                              session_token := some tok,
                              headers := headersUpdate st.headers "Session-Token" tok },
                           cfg.SUCCESS)
      else
        Except.ok (st, "A server error occurred during your request. If the status code is available, it is shown below\n" ++ toString r.status_code ++ ": " ++ r.reason)

/-- A Python `for` loop that projects each element of a list, raising the
first projection failure (used by the projectors of lines 66-87, 152-156). -/
def mapExcept {α β : Type} (f : α → Except PyExn β) : List α → Except PyExn (List β)
  | [] => Except.ok []
  | x :: xs =>
      match f x with
      | Except.error e => Except.error e
      | Except.ok y =>
          match mapExcept f xs with
          | Except.error e => Except.error e
          | Except.ok ys => Except.ok (y :: ys)

/-- The loop body of `get_panels_from_result` (lines 68-74): build the panel
dict from `jo['property_value_map']`, raising a `KeyError` if the item has no
`property_value_map` or a required field is absent. -/
def panel_of_item (jo : Json) : Except PyExn Panel :=
  match jsonSub jo "property_value_map" with
  | Except.error e => Except.error e
  | Except.ok pvm =>
      match jsonSub pvm "ID" with
      | Except.error e => Except.error e
      | Except.ok idv =>
          match jsonSub pvm "Name" with
          | Except.error e => Except.error e
          | Except.ok nmv =>
              match jsonSub pvm "IsOnline" with
              | Except.error e => Except.error e
              | Except.ok onv =>
                  match jsonSub pvm "PanelType" with
                  | Except.error e => Except.error e
                  | Except.ok tyv =>
                      Except.ok { id := idv, name := nmv, status := pyEqTrue onv, type := tyv }

/-- `get_panels_from_result` (lines 66-75): project every entry of
`result['item_list']`. Iterating a non-list `item_list` value is modelled as
a `TypeError` (no claim depends on Python's iteration over strings or dict
keys there). -/
def get_panels_from_result (result : Json) : Except PyExn (List Panel) :=
  match jsonSub result "item_list" with
  | Except.error e => Except.error e
  | Except.ok (Json.arr items) => mapExcept panel_of_item items
  | Except.ok _ => Except.error (PyExn.typeError "item_list value is not a list")

/-- The loop body of `get_readers_from_result` (lines 79-86). -/
def reader_of_item (jo : Json) : Except PyExn Reader :=
  match jsonSub jo "property_value_map" with
  | Except.error e => Except.error e
  | Except.ok pvm =>
      match jsonSub pvm "PanelID" with
      | Except.error e => Except.error e
      | Except.ok pid =>
          match jsonSub pvm "ReaderID" with
          | Except.error e => Except.error e
          | Except.ok rid =>
              match jsonSub pvm "Name" with
              | Except.error e => Except.error e
              | Except.ok nmv =>
                  match jsonSub pvm "ControlType" with
                  | Except.error e => Except.error e
                  | Except.ok tyv =>
                      match jsonSub pvm "HostName" with
                      | Except.error e => Except.error e
                      | Except.ok hnv =>
                          Except.ok { panelId := pid, id := rid, name := nmv,
                                      type := tyv, hostName := hnv }

/-- `get_readers_from_result` (lines 77-87). -/
def get_readers_from_result (result : Json) : Except PyExn (List Reader) :=
  match jsonSub result "item_list" with
  | Except.error e => Except.error e
  | Except.ok (Json.arr items) => mapExcept reader_of_item items
  | Except.ok _ => Except.error (PyExn.typeError "item_list value is not a list")

/-- The request URL built by `request_instances` (lines 53-57): the versioned
`instances` endpoint with `type_name`, `page_number`, `page_size` and
`order_by` query fragments, plus the raw `filter=panelid = N` fragment when
`panel_id != -1`. -/
def instances_url (cfg : Config) (st : ClientState) (ty : String)
    (page_num panel_id : Int) : String :=
  let request := build_uri_with_version st "instances" "1.0" ++ "&type_name=" ++ ty
      ++ "&page_number=" ++ toString page_num ++ "&page_size=" ++ cfg.DEFAULT_PAGE_SIZE
      ++ "&order_by=name"
  if panel_id != -1 then request ++ "&filter=panelid = " ++ toString panel_id else request

/-- `request_instances` (lines 53-64): GET the built URL and decode the body.
The stub transport `t` maps the request URL to the decoded JSON body of the
response (`self.client.get` followed by `parse_response`). -/
def request_instances (cfg : Config) (st : ClientState) (t : String → Json)
    (ty : String) (page_num panel_id : Int) : Json :=
  t (instances_url cfg st ty page_num panel_id)

/-- Python `range(2, pageCount + 1)` (lines 174, 201): the pages requested
after the first one. Empty whenever `pageCount < 2`. -/
def pageRange (pageCount : Int) : List Int :=
  (List.range' 2 (pageCount - 1).toNat).map Int.ofNat

/-- The shared page loop of `retrieve_panels` / `retrieve_readers`
(lines 174-179, 201-206): for each remaining page, GET it, project its items
and extend the accumulator; the first projection failure propagates. Returns
the result together with the trace of request URLs it issued, in order. -/
def fetch_pages {α : Type} (t : String → Json) (mkUrl : Int → String)
    (proj : Json → Except PyExn (List α)) :
    List Int → List α → Except PyExn (List α) × List String
  | [], acc => (Except.ok acc, [])
  | i :: rest, acc =>
      match proj (t (mkUrl i)) with
      | Except.error e => (Except.error e, [mkUrl i])
      | Except.ok items =>
          let r := fetch_pages t mkUrl proj rest (acc ++ items)
          (r.1, mkUrl i :: r.2)

/-- `retrieve_panels` (lines 162-181): reset `self.panels`, GET page 1 of
`Lnl_Panel` (no filter, `panel_id = -1`), read `total_pages`, project page 1,
then loop over pages `2..total_pages` extending `self.panels`, and return it.
A non-integer `total_pages` makes Python's `range` raise a `TypeError`.
The second component is the trace of request URLs issued, in order.
(On an uncaught exception the Python object may retain a partially extended
`self.panels`; that transient state is observed by no claim.) -/
def retrieve_panels (cfg : Config) (st : ClientState) (t : String → Json) :
    Except PyExn (ClientState × List Panel) × List String :=
  let st1 : ClientState := { st with panels := [] }
  let url1 := instances_url cfg st1 "Lnl_Panel" 1 (-1)
  let result := t url1
  match jsonSub result "total_pages" with
  | Except.error e => (Except.error e, [url1])
  | Except.ok (Json.num pageCount) =>
      match get_panels_from_result result with
      | Except.error e => (Except.error e, [url1])
      | Except.ok firstItems =>
          let r := fetch_pages t (fun i => instances_url cfg st1 "Lnl_Panel" i (-1))
              get_panels_from_result (pageRange pageCount) firstItems
          match r.1 with
          | Except.error e => (Except.error e, url1 :: r.2)
          | Except.ok allPanels => (Except.ok ({ st1 with panels := allPanels }, allPanels), url1 :: r.2)
  | Except.ok _ => (Except.error (PyExn.typeError "range arg 2 must be an integer"), [url1])

/-- `retrieve_readers` (lines 186-208): GET page 1 of `Lnl_Reader` filtered by
`panelId`; if `result["count"] == 0` return the empty list at once; otherwise
read `total_pages`, project page 1 and loop over pages `2..total_pages`.
The second component is the trace of request URLs issued, in order. -/
def retrieve_readers (cfg : Config) (st : ClientState) (t : String → Json)
    (panelId : Int) : Except PyExn (List Reader) × List String :=
  let url1 := instances_url cfg st "Lnl_Reader" 1 panelId
  let result := t url1
  match jsonSub result "count" with
  | Except.error e => (Except.error e, [url1])
  | Except.ok c =>
      if pyEqNum c 0 then (Except.ok [], [url1])
      else
        match jsonSub result "total_pages" with
        | Except.error e => (Except.error e, [url1])
        | Except.ok (Json.num pageCount) =>
            match get_readers_from_result result with
            | Except.error e => (Except.error e, [url1])
            | Except.ok firstItems =>
                let r := fetch_pages t (fun i => instances_url cfg st "Lnl_Reader" i panelId)
                    get_readers_from_result (pageRange pageCount) firstItems
                (r.1, url1 :: r.2)
        | Except.ok _ => (Except.error (PyExn.typeError "range arg 2 must be an integer"), [url1])

/-- The loop body of `get_directories` (lines 152-156). -/
def directory_of_item (jo : Json) : Except PyExn Directory :=
  match jsonSub jo "property_value_map" with
  | Except.error e => Except.error e
  | Except.ok pvm =>
      match jsonSub pvm "ID" with
      | Except.error e => Except.error e
      | Except.ok idv =>
          match jsonSub pvm "Name" with
          | Except.error e => Except.error e
          | Except.ok nmv => Except.ok { Id := idv, Name := nmv }

/-- `get_directories` (lines 144-160): GET the versioned `directories`
endpoint; on a 200 status decode the body (`json.loads(response.text)`) and
project every `item_list` entry to `{'Id', 'Name'}`; on any other status
return `None` (modelled as `none`). The function never returns a string. -/
def get_directories (st : ClientState) (r : Response) :
    Except PyExn (Option (List Directory)) :=
    if r.status_code == 200 then
      match r.body with
      | none => Except.error (PyExn.valueError "Expecting value: line 1 column 1 (char 0)")
      | some result =>
          match jsonSub result "item_list" with
          | Except.error e => Except.error e
          | Except.ok (Json.arr items) =>
              match mapExcept directory_of_item items with
              | Except.error e => Except.error e
              | Except.ok ds => Except.ok (some ds)
          | Except.ok _ => Except.error (PyExn.typeError "item_list value is not a list")
    else
      Except.ok none

/-- `OpenDoor` (lines 210-244): builds the identifying property map
`{"PanelID": str(reader.panelId), "ReaderID": str(reader.id)}`, the empty
parameter map and the envelope `em`, then evaluates
`self.client.post_json(self.build_uri_with_version("execute_method"), em)`.
Python evaluates the callable before its arguments, and `requests.Session`
has no `post_json` attribute, so line 236 raises an `AttributeError` at that
attribute lookup, before any request is issued; the envelope is never sent.
(The argument expression is never evaluated; had it run, the under-applied
`build_uri_with_version`, which takes `method_name` and `version` per
lines 50-51, would itself raise a `TypeError` — a second latent fault.)
The response handling of lines 239-244 is unreachable. -/
def OpenDoor (cfg : Config) (st : ClientState) (reader : Reader) : Except PyExn String :=
  let prop_value : List (String × Json) :=
    [("PanelID", Json.str (pyStr reader.panelId)),
     ("ReaderID", Json.str (pyStr reader.id))]
  let parameter_value : List (String × Json) := []
  let em : Json := Json.obj
    [("method_name", Json.str "OpenDoor"),
     ("type_name", Json.str "Lnl_Reader"),
     ("property_value_map", Json.obj prop_value),
     ("in_parameter_value_map", Json.obj parameter_value)]
  Except.error (PyExn.attributeError "'Session' object has no attribute 'post_json'")

/-- The pages `1, 2, ..., N` as the integers used for `page_number`. -/
def pagesThrough (N : Nat) : List Int :=
  (List.range' 1 N).map Int.ofNat

/-! ### Helper lemmas -/

theorem objLookup_headersUpdate (hs : List (String × Json)) (k : String) (v : Json) :
    objLookup (headersUpdate hs k v) k = some v := by
  induction hs with
  | nil => simp [headersUpdate, objLookup]
  | cons a rest ih =>
      obtain ⟨a1, a2⟩ := a
      by_cases h : (a1 == k) = true
      · simp [headersUpdate, h, objLookup]
      · simp only [headersUpdate, h]
        simp only [Bool.not_eq_true] at h
        simp [objLookup, h, ih]

theorem mapExcept_ok {α β : Type} (f : α → Except PyExn β) (g : α → β) :
    ∀ xs : List α, (∀ x ∈ xs, f x = Except.ok (g x)) →
      mapExcept f xs = Except.ok (xs.map g) := by
  intro xs
  induction xs with
  | nil => intro _; rfl
  | cons x rest ih =>
      intro h
      have hx := h x (List.mem_cons_self x rest)
      have hrest := ih fun y hy => h y (List.mem_cons_of_mem x hy)
      simp [mapExcept, hx, hrest]

theorem fetch_pages_ok {α : Type} (t : String → Json) (mkUrl : Int → String)
    (proj : Json → Except PyExn (List α)) (f : Int → List α) :
    ∀ (pages : List Int) (acc : List α),
      (∀ i ∈ pages, proj (t (mkUrl i)) = Except.ok (f i)) →
      fetch_pages t mkUrl proj pages acc =
        (Except.ok (acc ++ pages.flatMap f), pages.map mkUrl) := by
  intro pages
  induction pages with
  | nil => intro acc _; simp [fetch_pages]
  | cons i rest ih =>
      intro acc h
      have hi := h i (List.mem_cons_self i rest)
      have hrest := ih (acc ++ f i) fun j hj => h j (List.mem_cons_of_mem i hj)
      simp [fetch_pages, hi, hrest]

theorem pageRange_coe (K : Nat) :
    pageRange ((K + 1 : Nat) : Int) = (List.range' 2 K).map Int.ofNat := by
  unfold pageRange
  have h : (((K + 1 : Nat) : Int) - 1).toNat = K := by omega
  rw [h]

theorem pagesThrough_succ (K : Nat) :
    pagesThrough (K + 1) = (1 : Int) :: (List.range' 2 K).map Int.ofNat := rfl

theorem instances_url_set_panels (cfg : Config) (st : ClientState) (ps : List Panel)
    (ty : String) (n pid : Int) :
    instances_url cfg { st with panels := ps } ty n pid = instances_url cfg st ty n pid := rfl

/-! ### Concrete fixtures used by witnesses and counterexamples -/

namespace Fix

def cfg : Config := ⟨"b", "2", "Success", "Error", "1.0", "a"⟩

def st : ClientState := OpenAccess.mkInit cfg

def okBody : Json := Json.obj [("session_token", Json.str "T")]

def okResp : Response := ⟨200, "OK", "body with session_token T", some okBody⟩

def pvmLobby : Json := Json.obj
  [("ID", Json.str "1"), ("Name", Json.str "Lobby"),
   ("IsOnline", Json.bool true), ("PanelType", Json.str "X")]

def itemLobby : Json := Json.obj [("property_value_map", pvmLobby)]

def dirItem : Json := Json.obj
  [("property_value_map", Json.obj [("ID", Json.str "5"), ("Name", Json.str "Main")])]

def dirResp : Response :=
  ⟨200, "OK", "directory body", some (Json.obj [("item_list", Json.arr [dirItem])])⟩

def pItem (k : Int) : Json := Json.obj
  [("property_value_map", Json.obj
    [("ID", Json.num k), ("Name", Json.str "P"),
     ("IsOnline", Json.bool true), ("PanelType", Json.str "T")])]

def pPage1 : Json := Json.obj [("total_pages", Json.num 2), ("item_list", Json.arr [pItem 1])]

def pPage2 : Json := Json.obj [("item_list", Json.arr [pItem 2])]

def tPanels : String → Json := fun s =>
  if s = instances_url cfg st "Lnl_Panel" 1 (-1) then pPage1 else pPage2

def panelRec (k : Int) : Panel := ⟨Json.num k, Json.str "P", true, Json.str "T"⟩

def pitemsW : Int → List Panel := fun i => if i = 1 then [panelRec 1] else [panelRec 2]

def rItem : Json := Json.obj
  [("property_value_map", Json.obj
    [("PanelID", Json.num 5), ("ReaderID", Json.num 7), ("Name", Json.str "R"),
     ("ControlType", Json.str "C"), ("HostName", Json.str "H")])]

def rPage : Json := Json.obj
  [("count", Json.num 1), ("total_pages", Json.num 1), ("item_list", Json.arr [rItem])]

def uReaders : String → Json := fun _ => rPage

def readerRec : Reader := ⟨Json.num 5, Json.num 7, Json.str "R", Json.str "C", Json.str "H"⟩

def ritemsW : Int → List Reader := fun _ => [readerRec]

end Fix

/-! ### Claim theorems -/

/-- C6: for every base URL (`st.base_url`), resource path and version string,
`build_uri_with_version` returns exactly
`base_url + resource_path + "?version=" + version`; in particular every URL
built by `request_instances` starts with that prefix, the caller-appended
`&key=value` fragments following it. -/
theorem build_uri_with_version_spec (cfg : Config) (st : ClientState) (m v : String) :
    build_uri_with_version st m v = st.base_url ++ m ++ "?version=" ++ v ∧
    ∀ ty pg pid, ∃ rest,
      instances_url cfg st ty pg pid = build_uri_with_version st "instances" "1.0" ++ rest := by
  refine ⟨rfl, fun ty pg pid => ?_⟩
  by_cases h : (pid != -1) = true
  · refine ⟨"&type_name=" ++ (ty ++ ("&page_number=" ++ (toString pg ++ ("&page_size=" ++
      (cfg.DEFAULT_PAGE_SIZE ++ ("&order_by=name&filter=panelid = " ++ toString pid)))))), ?_⟩
    simp [instances_url, h, String.append_assoc]
  · refine ⟨"&type_name=" ++ (ty ++ ("&page_number=" ++ (toString pg ++ ("&page_size=" ++
      (cfg.DEFAULT_PAGE_SIZE ++ "&order_by=name"))))), ?_⟩
    simp [instances_url, h, String.append_assoc]

/-- C8: if the POST issued during `sign_in` fails at the connection level
(a `requests.exceptions.RequestException`), `sign_in` returns a result string
that starts with the word "Connection" (describing the failure and the likely
port conflict) and does not raise: the outcome is `Except.ok`, the state is
untouched. -/
theorem sign_in_connection_failure_returns_string (cfg : Config) (st : ClientState)
    (u p d e : String) :
    sign_in cfg st u p d (HttpOutcome.exn e) =
      Except.ok (st, "Connection" ++
        (" was unexpectedly closed. Make sure you don't have anything other than OpenAccess running on port 8080. Message: " ++ e)) := by
  show Except.ok (st,
    "Connection was unexpectedly closed. Make sure you don't have anything other than OpenAccess running on port 8080. Message: " ++ e) = _
  rw [← String.append_assoc]
  simp

/-- C3 (code bug): `OpenDoor` builds the envelope but then evaluates
`self.client.post_json(self.build_uri_with_version("execute_method"), em)`;
`requests.Session` has no `post_json` attribute and Python resolves the
callable before evaluating its arguments, so every call raises an
`AttributeError` before any request is issued — `OpenDoor` never POSTs the
envelope and never returns the success marker nor a failure string. -/
theorem OpenDoor_raises_AttributeError (cfg : Config) (st : ClientState) (rd : Reader) :
    OpenDoor cfg st rd =
      Except.error (PyExn.attributeError "'Session' object has no attribute 'post_json'") ∧
    ∀ s : String, OpenDoor cfg st rd ≠ Except.ok s := by
  refine ⟨rfl, fun s h => ?_⟩
  exact Except.noConfusion h

/-- C1: before any successful `sign_in` the stored token is absent; after a
`sign_in` whose response is ok and whose decoded body contains
`session_token`, the client stores that token, the header set maps
`Session-Token` to it (so every subsequent request carries it), and `sign_in`
returns the `SUCCESS` marker. -/
theorem sign_in_success_stores_token (cfg : Config) (st : ClientState)
    (u p d : String) (r : Response) (result tok : Json)
    (hok : respOk r = true) (hbody : r.body = some result)
    (htok : jsonSub result "session_token" = Except.ok tok) :
    (OpenAccess.mkInit cfg).session_token = none ∧
    sign_in cfg st u p d (HttpOutcome.resp r) =
      Except.ok ({ st with
                    session_token := some tok,
                    headers := headersUpdate st.headers "Session-Token" tok }, cfg.SUCCESS) ∧
    objLookup (headersUpdate st.headers "Session-Token" tok) "Session-Token" = some tok := by
  refine ⟨rfl, ?_, objLookup_headersUpdate st.headers _ tok⟩
  simp [sign_in, parse_response, hok, hbody, htok]

/-- Witness for C1 at a concrete 200 response with body
`{"session_token": "T"}`. -/
theorem sign_in_success_stores_token_witness :
    (OpenAccess.mkInit Fix.cfg).session_token = none ∧
    sign_in Fix.cfg Fix.st "u" "p" "d" (HttpOutcome.resp Fix.okResp) =
      Except.ok ({ Fix.st with
                    session_token := some (Json.str "T"),
                    headers := headersUpdate Fix.st.headers "Session-Token" (Json.str "T") },
                 Fix.cfg.SUCCESS) ∧
    objLookup (headersUpdate Fix.st.headers "Session-Token" (Json.str "T")) "Session-Token" =
      some (Json.str "T") :=
  sign_in_success_stores_token Fix.cfg Fix.st "u" "p" "d" Fix.okResp Fix.okBody
    (Json.str "T") rfl rfl rfl

/-- C9: on every failing `sign_in` outcome (connection-level exception or
non-ok HTTP response) the client state is returned unchanged: starting from
the constructed state, no token is stored and the header set still holds
exactly the three construction headers. -/
theorem sign_in_failure_preserves_state (cfg : Config) (u p d : String) (o : HttpOutcome)
    (hfail : (∃ e, o = HttpOutcome.exn e) ∨
             ∃ r, o = HttpOutcome.resp r ∧ respOk r = false) :
    ∃ msg, sign_in cfg (OpenAccess.mkInit cfg) u p d o =
        Except.ok (OpenAccess.mkInit cfg, msg) ∧
      (OpenAccess.mkInit cfg).headers =
        [("Application-Id", Json.str cfg.APPLICATION_ID),
         ("Content-Type", Json.str "application/json"),
         ("Accept", Json.str "application/json")] ∧
      (OpenAccess.mkInit cfg).session_token = none := by
  rcases hfail with ⟨e, rfl⟩ | ⟨r, rfl, hr⟩
  · exact ⟨_, rfl, rfl, rfl⟩
  · refine ⟨"A server error occurred during your request. If the status code is available, it is shown below\n"
      ++ toString r.status_code ++ ": " ++ r.reason, ?_, rfl, rfl⟩
    simp [sign_in, hr]

/-- Witness for C9 at a concrete 500 response. -/
theorem sign_in_failure_preserves_state_witness :
    ∃ msg, sign_in Fix.cfg (OpenAccess.mkInit Fix.cfg) "u" "p" "d"
        (HttpOutcome.resp ⟨500, "Server Error", "boom", none⟩) =
        Except.ok (OpenAccess.mkInit Fix.cfg, msg) ∧
      (OpenAccess.mkInit Fix.cfg).headers =
        [("Application-Id", Json.str Fix.cfg.APPLICATION_ID),
         ("Content-Type", Json.str "application/json"),
         ("Accept", Json.str "application/json")] ∧
      (OpenAccess.mkInit Fix.cfg).session_token = none :=
  sign_in_failure_preserves_state Fix.cfg "u" "p" "d" _
    (Or.inr ⟨⟨500, "Server Error", "boom", none⟩, rfl, rfl⟩)

/-- C2 counterexample: a 200 ("ok") response whose body is not valid JSON
makes `sign_in` raise (`json.loads` fails inside `parse_response`, with no
enclosing handler): the call does not return a string result, refuting the
claim for "success response with any body". -/
theorem sign_in_ok_malformed_body_raises :
    sign_in Fix.cfg Fix.st "u" "p" "d" (HttpOutcome.resp ⟨200, "OK", "not json", none⟩) =
      Except.error (PyExn.valueError "Expecting value: line 1 column 1 (char 0)") ∧
    ∀ res : ClientState × String,
      sign_in Fix.cfg Fix.st "u" "p" "d" (HttpOutcome.resp ⟨200, "OK", "not json", none⟩) ≠
        Except.ok res := by
  have hEq : sign_in Fix.cfg Fix.st "u" "p" "d"
      (HttpOutcome.resp ⟨200, "OK", "not json", none⟩) =
      Except.error (PyExn.valueError "Expecting value: line 1 column 1 (char 0)") := rfl
  refine ⟨hEq, fun res h => ?_⟩
  rw [hEq] at h
  exact Except.noConfusion h

/-- C2 amended: for a connection-level failure, an HTTP error response, or a
success response whose body decodes to JSON containing `session_token`,
`sign_in` returns a descriptive string result and no exception escapes. -/
theorem sign_in_handled_outcomes_return_string (cfg : Config) (st : ClientState)
    (u p d : String) (o : HttpOutcome)
    (h : (∃ e, o = HttpOutcome.exn e) ∨
         (∃ r, o = HttpOutcome.resp r ∧ respOk r = false) ∨
         ∃ r result tok, o = HttpOutcome.resp r ∧ respOk r = true ∧
           r.body = some result ∧ jsonSub result "session_token" = Except.ok tok) :
    ∃ st2 s, sign_in cfg st u p d o = Except.ok (st2, s) := by
  rcases h with ⟨e, rfl⟩ | ⟨r, rfl, hr⟩ | ⟨r, result, tok, rfl, hok, hbody, htok⟩
  · exact ⟨st, _, rfl⟩
  · refine ⟨st, "A server error occurred during your request. If the status code is available, it is shown below\n"
      ++ toString r.status_code ++ ": " ++ r.reason, ?_⟩
    simp [sign_in, hr]
  · refine ⟨{ st with
                session_token := some tok,
                headers := headersUpdate st.headers "Session-Token" tok }, cfg.SUCCESS, ?_⟩
    simp [sign_in, parse_response, hok, hbody, htok]

/-- Witness for the amended C2 at a concrete connection failure. -/
theorem sign_in_handled_outcomes_return_string_witness :
    ∃ st2 s, sign_in Fix.cfg Fix.st "u" "p" "d" (HttpOutcome.exn "boom") =
      Except.ok (st2, s) :=
  sign_in_handled_outcomes_return_string Fix.cfg Fix.st "u" "p" "d" _
    (Or.inl ⟨"boom", rfl⟩)

/-- C7: for every result whose `item_list` entries each carry a
`property_value_map` with keys `ID`, `Name`, `IsOnline`, `PanelType`, the
panel projector maps each entry, in order, to the record with `id` the `ID`
value, `name` the `Name` value, `status` the Python boolean
`IsOnline == True`, and `type` the `PanelType` value. -/
theorem get_panels_projection (result : Json) (items : List Json)
    (pv idv nmv onv tyv : Json → Json)
    (hil : jsonSub result "item_list" = Except.ok (Json.arr items))
    (hpv : ∀ jo ∈ items, jsonSub jo "property_value_map" = Except.ok (pv jo))
    (hid : ∀ jo ∈ items, jsonSub (pv jo) "ID" = Except.ok (idv jo))
    (hnm : ∀ jo ∈ items, jsonSub (pv jo) "Name" = Except.ok (nmv jo))
    (hon : ∀ jo ∈ items, jsonSub (pv jo) "IsOnline" = Except.ok (onv jo))
    (hty : ∀ jo ∈ items, jsonSub (pv jo) "PanelType" = Except.ok (tyv jo)) :
    get_panels_from_result result =
      Except.ok (items.map fun jo =>
        { id := idv jo, name := nmv jo, status := pyEqTrue (onv jo), type := tyv jo }) := by
  have hitem : ∀ jo ∈ items, panel_of_item jo =
      Except.ok { id := idv jo, name := nmv jo, status := pyEqTrue (onv jo), type := tyv jo } := by
    intro jo hm
    simp [panel_of_item, hpv jo hm, hid jo hm, hnm jo hm, hon jo hm, hty jo hm]
  simp [get_panels_from_result, hil, mapExcept_ok panel_of_item _ items hitem]

/-- Witness for C7 at the item of the specification:
`{"property_value_map": {"ID":"1","Name":"Lobby","IsOnline":true,"PanelType":"X"}}`
projects to `{id:"1", name:"Lobby", status:true, type:"X"}`. -/
theorem get_panels_projection_witness :
    get_panels_from_result (Json.obj [("item_list", Json.arr [Fix.itemLobby])]) =
      Except.ok [{ id := Json.str "1", name := Json.str "Lobby", status := true,
                   type := Json.str "X" }] :=
  get_panels_projection (Json.obj [("item_list", Json.arr [Fix.itemLobby])]) [Fix.itemLobby]
    (fun _ => Fix.pvmLobby) (fun _ => Json.str "1") (fun _ => Json.str "Lobby")
    (fun _ => Json.bool true) (fun _ => Json.str "X")
    rfl
    (fun jo hm => by rw [List.mem_singleton.mp hm]; rfl)
    (fun jo hm => by rw [List.mem_singleton.mp hm]; rfl)
    (fun jo hm => by rw [List.mem_singleton.mp hm]; rfl)
    (fun jo hm => by rw [List.mem_singleton.mp hm]; rfl)
    (fun jo hm => by rw [List.mem_singleton.mp hm]; rfl)

/-- C10: `get_directories` returns `None` exactly when the status code is not
200, and on a 200 response whose decoded body has well-formed `item_list`
entries it returns one `{Id, Name}` record per entry (capitalised keys); its
return value is never an error string (the return type has no string
alternative, matching the source's `None`-or-list returns). -/
theorem get_directories_spec (st : ClientState) (r : Response) (result : Json)
    (items : List Json) (pv idv nmv : Json → Json)
    (h200 : r.status_code = 200) (hbody : r.body = some result)
    (hil : jsonSub result "item_list" = Except.ok (Json.arr items))
    (hpv : ∀ jo ∈ items, jsonSub jo "property_value_map" = Except.ok (pv jo))
    (hid : ∀ jo ∈ items, jsonSub (pv jo) "ID" = Except.ok (idv jo))
    (hnm : ∀ jo ∈ items, jsonSub (pv jo) "Name" = Except.ok (nmv jo)) :
    get_directories st r =
      Except.ok (some (items.map fun jo => { Id := idv jo, Name := nmv jo })) ∧
    ∀ r2 : Response, get_directories st r2 = Except.ok none ↔ r2.status_code ≠ 200 := by
  constructor
  · have hitem : ∀ jo ∈ items, directory_of_item jo =
        Except.ok { Id := idv jo, Name := nmv jo } := by
      intro jo hm
      simp [directory_of_item, hpv jo hm, hid jo hm, hnm jo hm]
    simp [get_directories, h200, hbody, hil, mapExcept_ok directory_of_item _ items hitem]
  · intro r2
    constructor
    · intro hnone
      by_contra hne
      simp only [get_directories, hne, beq_self_eq_true, if_true] at hnone
      rcases hb : r2.body with _ | res
      · simp [hb] at hnone
      · rw [hb] at hnone
        rcases hil2 : jsonSub res "item_list" with e | j
        · simp [hil2] at hnone
        · rcases j with _ | b | n | s2 | its | flds
          · simp [hil2] at hnone
          · simp [hil2] at hnone
          · simp [hil2] at hnone
          · simp [hil2] at hnone
          · rcases hmE : mapExcept directory_of_item its with e | ds
            · simp [hil2, hmE] at hnone
            · simp [hil2, hmE] at hnone
          · simp [hil2] at hnone
    · intro hne
      have hb : (r2.status_code == 200) = false := by
        simpa using hne
      simp [get_directories, hb]

/-- Witness for C10 at a concrete 200 response with one directory item. -/
theorem get_directories_spec_witness :
    get_directories Fix.st Fix.dirResp =
      Except.ok (some [{ Id := Json.str "5", Name := Json.str "Main" }]) ∧
    ∀ r2 : Response, get_directories Fix.st r2 = Except.ok none ↔ r2.status_code ≠ 200 :=
  get_directories_spec Fix.st Fix.dirResp
    (Json.obj [("item_list", Json.arr [Fix.dirItem])]) [Fix.dirItem]
    (fun _ => Json.obj [("ID", Json.str "5"), ("Name", Json.str "Main")])
    (fun _ => Json.str "5") (fun _ => Json.str "Main")
    rfl rfl rfl
    (fun jo hm => by rw [List.mem_singleton.mp hm]; rfl)
    (fun jo hm => by rw [List.mem_singleton.mp hm]; rfl)
    (fun jo hm => by rw [List.mem_singleton.mp hm]; rfl)

/-- C5: for every filtered reader query whose first page reports
`count == 0`, `retrieve_readers` issues exactly one request (the page-1 URL)
and returns the empty list, without requesting further pages. -/
theorem retrieve_readers_zero_count (cfg : Config) (st : ClientState) (t : String → Json)
    (panelId : Int) (c : Json)
    (hfiltered : panelId ≠ -1)
    (hc : jsonSub (t (instances_url cfg st "Lnl_Reader" 1 panelId)) "count" = Except.ok c)
    (h0 : pyEqNum c 0 = true) :
    retrieve_readers cfg st t panelId =
      (Except.ok [], [instances_url cfg st "Lnl_Reader" 1 panelId]) := by
  simp [retrieve_readers, hc, h0]

/-- Witness for C5: a stub first page with `count = 0` for panel 5. -/
theorem retrieve_readers_zero_count_witness :
    retrieve_readers Fix.cfg Fix.st (fun _ => Json.obj [("count", Json.num 0)]) 5 =
      (Except.ok [], [instances_url Fix.cfg Fix.st "Lnl_Reader" 1 5]) :=
  retrieve_readers_zero_count Fix.cfg Fix.st (fun _ => Json.obj [("count", Json.num 0)]) 5
    (Json.num 0) (by decide) rfl rfl

/-- C4: for every stub transport whose page 1 reports `total_pages = N`
(`N ≥ 1`; for the filtered reader query also a non-zero `count`), the
pagination loops of `retrieve_panels` and `retrieve_readers` issue exactly
`N` requests, for pages `1..N` in ascending order (`pagesThrough N` is the
list `[1, ..., N]`), and return the concatenation of the projected items of
all pages in page order. -/
theorem pagination_fetches_all_pages (cfg : Config) (st : ClientState)
    (t u : String → Json) (panelId : Int) (N M : Nat)
    (pitems : Int → List Panel) (ritems : Int → List Reader) (c : Json)
    (hN : 1 ≤ N)
    (hptp : jsonSub (t (instances_url cfg st "Lnl_Panel" 1 (-1))) "total_pages" =
      Except.ok (Json.num (N : Int)))
    (hpp : ∀ i : Int, 1 ≤ i → i ≤ (N : Int) →
      get_panels_from_result (t (instances_url cfg st "Lnl_Panel" i (-1))) =
        Except.ok (pitems i))
    (hM : 1 ≤ M)
    (hrc : jsonSub (u (instances_url cfg st "Lnl_Reader" 1 panelId)) "count" = Except.ok c)
    (hc0 : pyEqNum c 0 = false)
    (hrtp : jsonSub (u (instances_url cfg st "Lnl_Reader" 1 panelId)) "total_pages" =
      Except.ok (Json.num (M : Int)))
    (hrp : ∀ i : Int, 1 ≤ i → i ≤ (M : Int) →
      get_readers_from_result (u (instances_url cfg st "Lnl_Reader" i panelId)) =
        Except.ok (ritems i)) :
    retrieve_panels cfg st t =
      (Except.ok ({ st with panels := (pagesThrough N).flatMap pitems },
                  (pagesThrough N).flatMap pitems),
       (pagesThrough N).map fun i => instances_url cfg st "Lnl_Panel" i (-1)) ∧
    retrieve_readers cfg st u panelId =
      (Except.ok ((pagesThrough M).flatMap ritems),
       (pagesThrough M).map fun i => instances_url cfg st "Lnl_Reader" i panelId) := by
  obtain ⟨K, rfl⟩ : ∃ K, N = K + 1 := ⟨N - 1, by omega⟩
  obtain ⟨L, rfl⟩ : ∃ L, M = L + 1 := ⟨M - 1, by omega⟩
  constructor
  · have hfirst : get_panels_from_result (t (instances_url cfg st "Lnl_Panel" 1 (-1))) =
        Except.ok (pitems 1) := hpp 1 (by omega) (by omega)
    have hrest : ∀ i ∈ (List.range' 2 K).map Int.ofNat,
        get_panels_from_result (t (instances_url cfg st "Lnl_Panel" i (-1))) =
          Except.ok (pitems i) := by
      intro i hi
      rw [List.mem_map] at hi
      obtain ⟨j, hj, rfl⟩ := hi
      rw [List.mem_range'_1] at hj
      exact hpp (Int.ofNat j) (by simp only [Int.ofNat_eq_coe]; omega)
        (by simp only [Int.ofNat_eq_coe]; omega)
    have hfetch := fetch_pages_ok t (fun i => instances_url cfg st "Lnl_Panel" i (-1))
      get_panels_from_result pitems ((List.range' 2 K).map Int.ofNat) (pitems 1) hrest
    simp only [retrieve_panels, instances_url_set_panels, hptp, pageRange_coe, hfirst, hfetch]
    simp [pagesThrough_succ]
  · have hfirst : get_readers_from_result (u (instances_url cfg st "Lnl_Reader" 1 panelId)) =
        Except.ok (ritems 1) := hrp 1 (by omega) (by omega)
    have hrest : ∀ i ∈ (List.range' 2 L).map Int.ofNat,
        get_readers_from_result (u (instances_url cfg st "Lnl_Reader" i panelId)) =
          Except.ok (ritems i) := by
      intro i hi
      rw [List.mem_map] at hi
      obtain ⟨j, hj, rfl⟩ := hi
      rw [List.mem_range'_1] at hj
      exact hrp (Int.ofNat j) (by simp only [Int.ofNat_eq_coe]; omega)
        (by simp only [Int.ofNat_eq_coe]; omega)
    have hfetch := fetch_pages_ok u (fun i => instances_url cfg st "Lnl_Reader" i panelId)
      get_readers_from_result ritems ((List.range' 2 L).map Int.ofNat) (ritems 1) hrest
    simp only [retrieve_readers, hrc, hc0, hrtp, pageRange_coe, hfirst, hfetch]
    simp [pagesThrough_succ]

/-- Witness for C4: two stub panel pages (`total_pages = 2`) and one stub
reader page (`total_pages = 1`, `count = 1`) for panel 5. -/
theorem pagination_fetches_all_pages_witness :
    retrieve_panels Fix.cfg Fix.st Fix.tPanels =
      (Except.ok ({ Fix.st with panels := (pagesThrough 2).flatMap Fix.pitemsW },
                  (pagesThrough 2).flatMap Fix.pitemsW),
       (pagesThrough 2).map fun i => instances_url Fix.cfg Fix.st "Lnl_Panel" i (-1)) ∧
    retrieve_readers Fix.cfg Fix.st Fix.uReaders 5 =
      (Except.ok ((pagesThrough 1).flatMap Fix.ritemsW),
       (pagesThrough 1).map fun i => instances_url Fix.cfg Fix.st "Lnl_Reader" i 5) :=
  pagination_fetches_all_pages Fix.cfg Fix.st Fix.tPanels Fix.uReaders 5 2 1
    Fix.pitemsW Fix.ritemsW (Json.num 1)
    (by decide) rfl
    (fun i h1 h2 => by
      rcases show i = 1 ∨ i = 2 from by omega with rfl | rfl
      · rfl
      · rfl)
    (by decide) rfl rfl rfl
    (fun i h1 h2 => rfl)

end OpenAccessPy
